import Mathlib

/-!
Verification of the product-chatbot server (`src/index.js`): the catalog
cache (`getProducts`), the prompt construction (`buildProductContext` and
the constrained prompt of the chat endpoint), and the chat endpoint's
request handling, shallowly embedded in Lean.

JavaScript values flowing through the program (parsed JSON payloads and
their fields) are modelled by the inductive type `Json`; JS truthiness and
template-literal string coercion are modelled by `Json.truthy` and
`Json.render`.  Time is an `Int` (milliseconds, as `Date.now()`), and the
outcome of the single outbound HTTP fetch is an explicit `FetchOutcome`
parameter, so the stateful `getProducts` becomes a pure function from
(cache, now, outcome) to (result, new cache, whether the network was hit).
-/

set_option maxRecDepth 100000

/-- A JSON value, as produced by `response.json()`.  Numbers are modelled
as integers (every numeric literal relevant to the claims is integral). -/
inductive Json where
  | null : Json
  | bool : Bool → Json
  | num : Int → Json
  | str : String → Json
  | arr : List Json → Json
  | obj : List (String × Json) → Json

/-- JS truthiness of a value: `null`, `false`, `0` and `""` are falsy;
every object and array (empty or not) is truthy. -/
def Json.truthy : Json → Bool
  | .null => false
  | .bool b => b
  | .num n => n != 0
  | .str s => s != ""
  | .arr _ => true
  | .obj _ => true

/-- JS property access `v.name`: a field of an object, `none` (undefined)
otherwise.  (Property access on `null` throws in JS; every place the
program reads a field of a possibly-`null` value ends in the same catch-all
error path as the `none` case, so `none` is a faithful model there.) -/
def Json.getField : Json → String → Option Json
  | .obj fields, name => (fields.find? (fun p => p.1 == name)).map (·.2)
  | _, _ => none

mutual

/-- Template-literal coercion of a (truthy) JS value to a string, as in
`` `${v}` ``. -/
def Json.render : Json → String
  | .null => "null"
  | .bool b => if b then "true" else "false"
  | .num n => toString n
  | .str s => s
  | .arr xs => String.intercalate "," (Json.renderList xs)
  | .obj _ => "[object Object]"

/-- Renderings of the elements of an array, for `Json.render`. -/
def Json.renderList : List Json → List String
  | [] => []
  | x :: xs => Json.render x :: Json.renderList xs

end

/-- JS `a || b` where `a` is a property lookup that may be undefined
(`none`): yields `a`'s value when it is present and truthy, otherwise `b`. -/
def jsOrJson : Option Json → Json → Json
  | some v, b => if v.truthy then v else b
  | none, b => b

/-- Line 93 of `src/index.js`: `data.content || data.products || data.items || data`. -/
def selectProducts (data : Json) : Json :=
  jsOrJson (data.getField "content")
    (jsOrJson (data.getField "products")
      (jsOrJson (data.getField "items") data))

/-- The product cache (`productCache`, lines 26–30): `data` is the stored
item list, `lastUpdated` is `null` (`none`) until the first successful
fetch, `ttl` is in milliseconds. -/
structure ProductCache where
  data : List Json
  lastUpdated : Option Int
  ttl : Int

/-- Initial cache at process start (lines 26–30). -/
def initialCache : ProductCache :=
  { data := [], lastUpdated := none, ttl := 1000 * 60 * 10 }

/-- Outcome of the single outbound HTTP GET performed by a cache miss:
the promise rejects, the status is not ok, the body fails to parse as
JSON, or a JSON payload is obtained. -/
inductive FetchOutcome where
  | networkError : String → FetchOutcome
  | httpError : Nat → FetchOutcome
  | parseError : String → FetchOutcome
  | payload : Json → FetchOutcome

/-- Result of one `getProducts()` call: the returned value or thrown
error, the cache afterwards, and whether `fetch` was invoked. -/
structure GetResult where
  result : Except String (List Json)
  cache : ProductCache
  networkCalled : Bool

/-- The cache-validity test of line 72–73:
`productCache.data.length > 0 && Date.now() - productCache.lastUpdated < productCache.ttl`
(JS coerces a `null` `lastUpdated` to `0` in the subtraction). -/
def cacheValid (c : ProductCache) (now : Int) : Prop :=
  0 < c.data.length ∧ now - (c.lastUpdated.getD 0) < c.ttl

instance (c : ProductCache) (now : Int) : Decidable (cacheValid c now) :=
  inferInstanceAs (Decidable (_ ∧ _))

/-- The `getProducts` function (lines 65–116): serve the cache when valid, otherwise
fetch, probe the payload for the product list, require an array, and on
success replace the snapshot wholesale. -/
def getProducts (c : ProductCache) (now : Int) (outcome : FetchOutcome) : GetResult :=
  if cacheValid c now then
    { result := .ok c.data, cache := c, networkCalled := false }
  else
    match outcome with
    | .networkError msg =>
        { result := .error msg, cache := c, networkCalled := true }
    | .httpError status =>
        { result := .error ("Products API failed: " ++ toString status),
          cache := c, networkCalled := true }
    | .parseError msg =>
        { result := .error msg, cache := c, networkCalled := true }
    | .payload data =>
        match selectProducts data with
        | .arr products =>
            { result := .ok products,
              cache := { data := products, lastUpdated := some now, ttl := 1000 * 60 * 10 },
              networkCalled := true }
        | _ =>
            { result := .error "Products data is not an array",
              cache := c, networkCalled := true }

/-- The cache states reachable at runtime: the initial cache, and every
cache produced from a reachable one by a `getProducts` call. -/
inductive ReachableCache : ProductCache → Prop where
  | init : ReachableCache initialCache
  | step (c : ProductCache) (now : Int) (outcome : FetchOutcome) :
      ReachableCache c → ReachableCache (getProducts c now outcome).cache

/-- One field substitution of the `buildProductContext` template, e.g.
`${p.title || 'Unnamed Product'}`: the rendered field value when present
and truthy, the placeholder otherwise. -/
def renderOr (p : Json) (field : String) (placeholder : String) : String :=
  match p.getField field with
  | some v => if v.truthy then v.render else placeholder
  | none => placeholder

/-- The `buildProductContext` function (lines 119–126): one template block per product
(whitespace exactly as in the template literal), joined with `"\n\n"`. -/
def buildProductContext (products : List Json) : String :=
  String.intercalate "\n\n" (products.map (fun p =>
    "\n    Product: " ++ renderOr p "title" "Unnamed Product" ++
    "\n    Description: " ++ renderOr p "description" "No description" ++
    "\n    Price: " ++ renderOr p "price" "N/A" ++
    "\n    Category: " ++ renderOr p "category" "Uncategorized" ++
    "\n  "))

/-- The constrained prompt assembled by the chat endpoint (lines 147–158),
whitespace exactly as in the template literal. -/
def constrainedPrompt (prompt : String) (products : List Json) : String :=
  "\n      [Respond in under 40 words]" ++
  "\n      User Query: " ++ prompt ++
  "\n      " ++
  "\n      Available Products:" ++
  "\n      " ++ buildProductContext products ++
  "\n      " ++
  "\n      Response Requirements:" ++
  "\n      - Concise bullet points" ++
  "\n      - Max 200 tokens" ++
  "\n      - Prioritize most relevant products" ++
  "\n    "

/-- The blank test `prompt.trim().length === 0`: a string trims to the
empty string exactly when every one of its characters is whitespace. -/
def isBlank (s : String) : Bool := s.data.all (·.isWhitespace)

/-- The prompt validation of lines 131–135
(`!prompt || typeof prompt !== 'string' || prompt.trim().length === 0`):
the request passes validation exactly when the body's `prompt` field is a
string that is non-empty after trimming; returns that string. -/
def promptValid (v : Option Json) : Option String :=
  match v with
  | some (.str s) => if isBlank s then none else some s
  | _ => none

/-- The HTTP response produced by the chat endpoint: a 400 with an error
message, a 500 with an error message, or a 200 JSON body with the
generated text, the token estimate, and the number of products used. -/
inductive ChatResult where
  | clientError : String → ChatResult
  | serverError : String → ChatResult
  | success : String → ℚ → Nat → ChatResult

/-- HTTP status code of a `ChatResult`. -/
def ChatResult.status : ChatResult → Nat
  | .clientError _ => 400
  | .serverError _ => 500
  | .success _ _ _ => 200

/-- The word-splitting of line 165, `response.split(' ')`. -/
def jsSplitSpace (s : String) : List String := s.splitOn " "

/-- The `/api/chat` handler (lines 129–173): validate the prompt, obtain
products through the cache, build the constrained prompt, invoke the
generation engine (modelled as a function `gen` from prompt to outcome),
and assemble the response; any thrown error becomes a 500.  Returns the
response together with the cache afterwards and whether the catalog
network was hit. -/
def handleChat (c : ProductCache) (now : Int) (body : Json)
    (outcome : FetchOutcome) (gen : String → Except String String) :
    ChatResult × ProductCache × Bool :=
  match promptValid (body.getField "prompt") with
  | none =>
      (.clientError "Prompt is required and must be a non-empty string.", c, false)
  | some prompt =>
      let g := getProducts c now outcome
      match g.result with
      | .error e => (.serverError e, g.cache, g.networkCalled)
      | .ok products =>
          match gen (constrainedPrompt prompt products) with
          | .error e => (.serverError e, g.cache, g.networkCalled)
          | .ok text =>
              (.success text (((jsSplitSpace text).length : ℚ) * (1.33 : ℚ)) products.length,
               g.cache, g.networkCalled)

/-- The product-list selection as the claim words it: probe the fields in
the order `content`, `items`, `products`; the first candidate field that
EXISTS in the payload is selected (even when its value is falsy or not an
array); when none is present the whole payload is the list. -/
def selectProducts_claimedSpec (data : Json) : Json :=
  match data.getField "content" with
  | some v => v
  | none =>
    match data.getField "items" with
    | some v => v
    | none =>
      match data.getField "products" with
      | some v => v
      | none => data

/-- The field value when present and truthy, `none` otherwise. -/
def truthyField (data : Json) (name : String) : Option Json :=
  match data.getField name with
  | some v => if v.truthy then some v else none
  | none => none

/-- The product-list selection as the amended claim words it: probe the
fields in the order `content`, `products`, `items`; the first candidate
whose value is present AND truthy is selected (even when it is not an
array); when no candidate is present-and-truthy the whole payload is the
list. -/
def selectProducts_amendedSpec (data : Json) : Json :=
  match truthyField data "content" with
  | some v => v
  | none =>
    match truthyField data "products" with
    | some v => v
    | none =>
      match truthyField data "items" with
      | some v => v
      | none => data

/-- The template rows of the catalog block, as the spec lists them: label
prefix, source field name, documented placeholder. -/
def specFieldRows : List (String × String × String) :=
  [("\n    Product: ", "title", "Unnamed Product"),
   ("\n    Description: ", "description", "No description"),
   ("\n    Price: ", "price", "N/A"),
   ("\n    Category: ", "category", "Uncategorized")]

/-- One catalog block as the spec describes it: render the template rows
in order, substituting each field and defaulting to the documented
placeholder when the field is absent or falsy. -/
def specBlock (p : Json) : String :=
  String.join (specFieldRows.map (fun row => row.1 ++ renderOr p row.2.1 row.2.2)) ++ "\n  "

/-- The catalog text as the spec describes it: one fixed-template block
per product, in input order (no sorting, no deduplication), joined by a
blank-line separator. -/
def buildProductContext_spec (products : List Json) : String :=
  String.intercalate "\n\n" (products.map specBlock)

/-- The fetch attempt fails: the network errors, the HTTP status is not
ok, the body does not parse as JSON, or the selected candidate is not an
array. -/
def fetchFails : FetchOutcome → Prop
  | .payload d => ∀ xs, selectProducts d ≠ Json.arr xs
  | _ => True

/-- C2: for every cache snapshot whose items list is non-empty and whose
age `now - lastUpdated` is strictly below the ttl, `getProducts` performs
no network call, returns exactly the stored items in the stored order,
and leaves the cache unchanged. -/
theorem fresh_cache_hit_serves_stored_items (c : ProductCache) (now t : Int)
    (outcome : FetchOutcome) (hne : c.data ≠ []) (ht : c.lastUpdated = some t)
    (hfresh : now - t < c.ttl) :
    getProducts c now outcome =
      { result := .ok c.data, cache := c, networkCalled := false } := by
  have hv : cacheValid c now := by
    refine ⟨List.length_pos.mpr hne, ?_⟩
    simpa [ht] using hfresh
  simp [getProducts, hv]

/-- Witness for C2 at a concrete fresh, non-empty snapshot. -/
theorem fresh_cache_hit_serves_stored_items_witness :
    getProducts ⟨[Json.str "p"], some 0, 1000 * 60 * 10⟩ 5 (.httpError 500) =
      { result := .ok [Json.str "p"],
        cache := ⟨[Json.str "p"], some 0, 1000 * 60 * 10⟩,
        networkCalled := false } :=
  fresh_cache_hit_serves_stored_items _ 5 0 _ (by simp) rfl (by norm_num)

/-- C3: for every cache snapshot whose items list is empty, `getProducts`
attempts a fetch regardless of the snapshot's timestamp: the network is
always called, so an empty-items snapshot is never served as a cache
hit. -/
theorem empty_cache_always_fetches (c : ProductCache) (now : Int)
    (outcome : FetchOutcome) (h : c.data = []) :
    (getProducts c now outcome).networkCalled = true := by
  have hv : ¬ cacheValid c now := by simp [cacheValid, h]
  unfold getProducts
  rw [if_neg hv]
  cases outcome with
  | networkError msg => rfl
  | httpError status => rfl
  | parseError msg => rfl
  | payload d => cases hsel : selectProducts d <;> simp [hsel]

/-- Witness for C3 at the initial (empty) cache. -/
theorem empty_cache_always_fetches_witness :
    (getProducts initialCache 0 (.payload (Json.arr []))).networkCalled = true :=
  empty_cache_always_fetches initialCache 0 _ rfl

/-- C4: when the cache is invalid and the fetch fails (network error,
bad HTTP status, JSON parse error, or a selected candidate that is not an
array), `getProducts` fails with an error and the cache snapshot is left
exactly as it was: stale contents are not served as a fallback and a
failed fetch mutates nothing. -/
theorem fetch_failure_propagates_and_mutates_nothing (c : ProductCache)
    (now : Int) (outcome : FetchOutcome) (hinv : ¬ cacheValid c now)
    (hfail : fetchFails outcome) :
    (∃ e, (getProducts c now outcome).result = .error e) ∧
      (getProducts c now outcome).cache = c := by
  unfold getProducts
  rw [if_neg hinv]
  cases outcome with
  | networkError msg => exact ⟨⟨msg, rfl⟩, rfl⟩
  | httpError status => exact ⟨⟨_, rfl⟩, rfl⟩
  | parseError msg => exact ⟨⟨msg, rfl⟩, rfl⟩
  | payload d =>
    cases hsel : selectProducts d with
    | arr xs => exact absurd hsel (hfail xs)
    | null => simp [hsel]
    | bool b => simp [hsel]
    | num n => simp [hsel]
    | str s => simp [hsel]
    | obj fields => simp [hsel]

/-- Witness for C4: a stale snapshot plus a failing HTTP status leaves
the snapshot untouched and produces an error. -/
theorem fetch_failure_propagates_and_mutates_nothing_witness :
    (∃ e, (getProducts ⟨[Json.str "p"], some 0, 1000 * 60 * 10⟩ 1000000000
        (.httpError 500)).result = .error e) ∧
      (getProducts ⟨[Json.str "p"], some 0, 1000 * 60 * 10⟩ 1000000000
        (.httpError 500)).cache = ⟨[Json.str "p"], some 0, 1000 * 60 * 10⟩ :=
  fetch_failure_propagates_and_mutates_nothing _ _ _
    (by simp [cacheValid]) trivial

/-- Helper: one `getProducts` call either leaves the cache untouched, or
returns `ok items` and installs the whole snapshot
`⟨items, some now, 10 minutes⟩` as one unit. -/
theorem getProducts_cache_cases (c : ProductCache) (now : Int)
    (outcome : FetchOutcome) :
    (getProducts c now outcome).cache = c ∨
      ∃ items, (getProducts c now outcome).result = .ok items ∧
        (getProducts c now outcome).cache =
          { data := items, lastUpdated := some now, ttl := 1000 * 60 * 10 } := by
  unfold getProducts
  by_cases hv : cacheValid c now
  · rw [if_pos hv]; exact Or.inl rfl
  · rw [if_neg hv]
    cases outcome with
    | networkError msg => exact Or.inl rfl
    | httpError status => exact Or.inl rfl
    | parseError msg => exact Or.inl rfl
    | payload d =>
      cases hsel : selectProducts d with
      | arr xs => exact Or.inr ⟨xs, by simp [hsel], by simp [hsel]⟩
      | null => exact Or.inl (by simp [hsel])
      | bool b => exact Or.inl (by simp [hsel])
      | num n => exact Or.inl (by simp [hsel])
      | str s => exact Or.inl (by simp [hsel])
      | obj fields => exact Or.inl (by simp [hsel])

/-- C9: every reachable cache snapshot — the initial one and every one
installed by a successful fetch — carries the fixed ttl of 10 minutes
(600000 ms), and a snapshot is only ever replaced wholesale: a
`getProducts` call either leaves the cache untouched or installs `items`,
`lastUpdated = now` and the constant ttl together as one unit. -/
theorem snapshot_ttl_invariant :
    (∀ c, ReachableCache c → c.ttl = 1000 * 60 * 10) ∧
      (∀ c now outcome, (getProducts c now outcome).cache = c ∨
        ∃ items, (getProducts c now outcome).result = .ok items ∧
          (getProducts c now outcome).cache =
            { data := items, lastUpdated := some now, ttl := 1000 * 60 * 10 }) := by
  constructor
  · intro c hc
    induction hc with
    | init => rfl
    | step c' now outcome _ ih =>
      rcases getProducts_cache_cases c' now outcome with h | ⟨items, _, h⟩
      · rw [h]; exact ih
      · rw [h]
  · exact getProducts_cache_cases

/-- Witness for C9 at the initial cache. -/
theorem snapshot_ttl_invariant_witness : initialCache.ttl = 1000 * 60 * 10 :=
  snapshot_ttl_invariant.1 initialCache ReachableCache.init

/-- C10: a chat request failing prompt validation (missing, non-string,
or blank `prompt`) gets the client-error response before the cache is
consulted: no catalog fetch happens and the cache snapshot is unchanged. -/
theorem invalid_prompt_no_fetch (c : ProductCache) (now : Int) (body : Json)
    (outcome : FetchOutcome) (gen : String → Except String String)
    (h : promptValid (body.getField "prompt") = none) :
    handleChat c now body outcome gen =
      (.clientError "Prompt is required and must be a non-empty string.",
        c, false) := by
  simp [handleChat, h]

/-- Witness for C10: a body with no `prompt` field at all. -/
theorem invalid_prompt_no_fetch_witness :
    handleChat initialCache 0 (Json.obj []) (.payload (Json.arr []))
        (fun _ => .ok "hi") =
      (.clientError "Prompt is required and must be a non-empty string.",
        initialCache, false) :=
  invalid_prompt_no_fetch initialCache 0 (Json.obj []) _ _ rfl

/-- C8: contract of the chat endpoint.  A body whose `prompt` field is
missing, not a string, or empty after trimming yields the 400
client-error response; when the full pipeline succeeds the response is a
200 carrying the generated text, the token estimate of
`split-on-space word count × 1.33`, and the number of products used in
context; a cache-fetch failure or a generation failure yields a 500
server-error response carrying that failure's message. -/
theorem chat_endpoint_contract (c : ProductCache) (now : Int) (body : Json)
    (outcome : FetchOutcome) (gen : String → Except String String) :
    (promptValid (body.getField "prompt") = none →
      handleChat c now body outcome gen =
        (.clientError "Prompt is required and must be a non-empty string.",
          c, false) ∧
      (handleChat c now body outcome gen).1.status = 400) ∧
    (∀ p products text, promptValid (body.getField "prompt") = some p →
      (getProducts c now outcome).result = .ok products →
      gen (constrainedPrompt p products) = .ok text →
      (handleChat c now body outcome gen).1 =
        .success text (((jsSplitSpace text).length : ℚ) * (1.33 : ℚ))
          products.length ∧
      (handleChat c now body outcome gen).1.status = 200) ∧
    (∀ p e, promptValid (body.getField "prompt") = some p →
      (getProducts c now outcome).result = .error e →
      (handleChat c now body outcome gen).1 = .serverError e ∧
      (handleChat c now body outcome gen).1.status = 500) ∧
    (∀ p products e, promptValid (body.getField "prompt") = some p →
      (getProducts c now outcome).result = .ok products →
      gen (constrainedPrompt p products) = .error e →
      (handleChat c now body outcome gen).1 = .serverError e ∧
      (handleChat c now body outcome gen).1.status = 500) := by
  refine ⟨?_, ?_, ?_, ?_⟩
  · intro h
    simp [handleChat, h, ChatResult.status]
  · intro p products text hp hres hgen
    simp [handleChat, hp, hres, hgen, ChatResult.status]
  · intro p e hp hres
    simp [handleChat, hp, hres, ChatResult.status]
  · intro p products e hp hres hgen
    simp [handleChat, hp, hres, hgen, ChatResult.status]

/-- Witness for C8: a valid prompt, a successful fetch of an empty
catalog, and a successful generation produce the 200 response with the
documented token estimate. -/
theorem chat_endpoint_contract_witness :
    (handleChat initialCache 0 (Json.obj [("prompt", Json.str "hi")])
        (.payload (Json.arr [])) (fun _ => .ok "Hello there")).1 =
      .success "Hello there"
        (((jsSplitSpace "Hello there").length : ℚ) * (1.33 : ℚ)) 0 ∧
    (handleChat initialCache 0 (Json.obj [("prompt", Json.str "hi")])
        (.payload (Json.arr [])) (fun _ => .ok "Hello there")).1.status = 200 :=
  (chat_endpoint_contract initialCache 0 (Json.obj [("prompt", Json.str "hi")])
      (.payload (Json.arr [])) (fun _ => .ok "Hello there")).2.1
    "hi" [] "Hello there" rfl rfl rfl

/-- C1 counterexample: for the payload `{"items": [], "products": ["x"]}`
the code (`data.content || data.products || data.items || data`) selects
the `products` field, whereas the claimed probing order — `content`, then
`items`, then `products`, by field existence — selects `items`. -/
theorem product_selection_order_cex :
    selectProducts
        (Json.obj [("items", Json.arr []), ("products", Json.arr [Json.str "x"])]) ≠
      selectProducts_claimedSpec
        (Json.obj [("items", Json.arr []), ("products", Json.arr [Json.str "x"])]) := by
  intro h
  simp [selectProducts, selectProducts_claimedSpec, jsOrJson,
    Json.getField, Json.truthy] at h

/-- C1 (amended): the product list is selected by probing the payload's
fields in the order `content`, then `products`, then `items`, taking the
first field whose value is present and truthy — even when it is not an
array — and falling back to the whole payload when no candidate is
present-and-truthy; a non-array selection then makes the fetch fail with
the not-an-array error. -/
theorem product_selection_order (d : Json) :
    selectProducts d = selectProducts_amendedSpec d ∧
    (∀ c now, ¬ cacheValid c now → (∀ xs, selectProducts d ≠ Json.arr xs) →
      (getProducts c now (.payload d)).result =
        .error "Products data is not an array") := by
  constructor
  · rcases hc : d.getField "content" with _ | vc <;>
    rcases hp : d.getField "products" with _ | vp <;>
    rcases hi : d.getField "items" with _ | vi <;>
    simp only [selectProducts, selectProducts_amendedSpec, truthyField,
      jsOrJson, hc, hp, hi] <;>
    split_ifs <;> simp_all
  · intro c now hinv hnotarr
    unfold getProducts
    rw [if_neg hinv]
    cases hsel : selectProducts d with
    | arr xs => exact absurd hsel (hnotarr xs)
    | null => simp [hsel]
    | bool b => simp [hsel]
    | num n => simp [hsel]
    | str s => simp [hsel]
    | obj fields => simp [hsel]

/-- Witness for C1 (amended) at the payload `{"content": 5}`: the truthy
non-array `content` field is selected and the fetch fails. -/
theorem product_selection_order_witness :
    selectProducts (Json.obj [("content", Json.num 5)]) =
      selectProducts_amendedSpec (Json.obj [("content", Json.num 5)]) ∧
    (getProducts initialCache 0
        (.payload (Json.obj [("content", Json.num 5)]))).result =
      .error "Products data is not an array" :=
  ⟨(product_selection_order _).1,
   (product_selection_order _).2 initialCache 0
     (by simp [cacheValid, initialCache])
     (fun xs h => by
       simp [selectProducts, Json.getField, jsOrJson, Json.truthy] at h)⟩

/-- C5 counterexample: for the product `{"price": 0}` the code
(`p.price || 'N/A'`) renders the price as "N/A", not as "0": a defined
but falsy price is replaced by the placeholder.  The full catalog text
built for this one product is computed explicitly. -/
theorem zero_price_renders_na_cex :
    renderOr (Json.obj [("price", Json.num 0)]) "price" "N/A" = "N/A" ∧
    renderOr (Json.obj [("price", Json.num 0)]) "price" "N/A" ≠ "0" ∧
    buildProductContext [Json.obj [("price", Json.num 0)]] =
      "\n    Product: Unnamed Product\n    Description: No description\n    Price: N/A\n    Category: Uncategorized\n  " :=
  ⟨rfl, by decide, by decide⟩

/-- C5 (amended): in the built catalog text, a product missing its
`title` field renders as "Unnamed Product", and a product whose `price`
field is 0 — defined but falsy — renders its price as the placeholder
"N/A", not as `0`: falsy field values are replaced by their placeholders
just like absent ones. -/
theorem missing_title_zero_price_rendering (p : Json)
    (ht : p.getField "title" = none)
    (hp : p.getField "price" = some (Json.num 0)) :
    renderOr p "title" "Unnamed Product" = "Unnamed Product" ∧
    renderOr p "price" "N/A" = "N/A" ∧
    buildProductContext [p] =
      "\n    Product: " ++ "Unnamed Product" ++
      "\n    Description: " ++ renderOr p "description" "No description" ++
      "\n    Price: " ++ "N/A" ++
      "\n    Category: " ++ renderOr p "category" "Uncategorized" ++
      "\n  " := by
  have hT : renderOr p "title" "Unnamed Product" = "Unnamed Product" := by
    simp [renderOr, ht]
  have hP : renderOr p "price" "N/A" = "N/A" := by
    simp [renderOr, hp, Json.truthy]
  have hb : buildProductContext [p] =
      "\n    Product: " ++ renderOr p "title" "Unnamed Product" ++
      "\n    Description: " ++ renderOr p "description" "No description" ++
      "\n    Price: " ++ renderOr p "price" "N/A" ++
      "\n    Category: " ++ renderOr p "category" "Uncategorized" ++
      "\n  " := rfl
  rw [hT, hP] at hb
  exact ⟨hT, hP, hb⟩

/-- Witness for C5 (amended) at the concrete product `{"price": 0}`. -/
theorem missing_title_zero_price_rendering_witness :
    renderOr (Json.obj [("price", Json.num 0)]) "title" "Unnamed Product" =
      "Unnamed Product" ∧
    renderOr (Json.obj [("price", Json.num 0)]) "price" "N/A" = "N/A" ∧
    buildProductContext [Json.obj [("price", Json.num 0)]] =
      "\n    Product: " ++ "Unnamed Product" ++
      "\n    Description: " ++
        renderOr (Json.obj [("price", Json.num 0)]) "description"
          "No description" ++
      "\n    Price: " ++ "N/A" ++
      "\n    Category: " ++
        renderOr (Json.obj [("price", Json.num 0)]) "category"
          "Uncategorized" ++
      "\n  " :=
  missing_title_zero_price_rendering _ rfl rfl

/-- C6: building the constrained prompt for the user query "laptops" with
an empty product list succeeds (the builder is a total function) and
yields the fixed instructional template around a catalog section that
enumerates zero products (the `Available Products:` header is followed by
the empty catalog text), still containing the word-limit clause, the
token-ceiling clause and the bullet-point clause. -/
theorem empty_catalog_prompt :
    buildProductContext ([] : List Json) = "" ∧
    constrainedPrompt "laptops" [] =
      "\n      [Respond in under 40 words]\n      User Query: laptops\n      \n      Available Products:\n      \n      \n      Response Requirements:\n      - Concise bullet points\n      - Max 200 tokens\n      - Prioritize most relevant products\n    " ∧
    (∃ pre post, constrainedPrompt "laptops" [] =
      pre ++ ("Available Products:\n      " ++ buildProductContext []) ++ post) ∧
    (∃ pre post, constrainedPrompt "laptops" [] =
      pre ++ "[Respond in under 40 words]" ++ post) ∧
    (∃ pre post, constrainedPrompt "laptops" [] =
      pre ++ "- Concise bullet points" ++ post) ∧
    (∃ pre post, constrainedPrompt "laptops" [] =
      pre ++ "- Max 200 tokens" ++ post) := by
  refine ⟨rfl, by decide, ?_, ?_, ?_, ?_⟩
  · exact ⟨"\n      [Respond in under 40 words]\n      User Query: laptops\n      \n      ",
      "\n      \n      Response Requirements:\n      - Concise bullet points\n      - Max 200 tokens\n      - Prioritize most relevant products\n    ",
      by decide⟩
  · exact ⟨"\n      ",
      "\n      User Query: laptops\n      \n      Available Products:\n      \n      \n      Response Requirements:\n      - Concise bullet points\n      - Max 200 tokens\n      - Prioritize most relevant products\n    ",
      by decide⟩
  · exact ⟨"\n      [Respond in under 40 words]\n      User Query: laptops\n      \n      Available Products:\n      \n      \n      Response Requirements:\n      ",
      "\n      - Max 200 tokens\n      - Prioritize most relevant products\n    ",
      by decide⟩
  · exact ⟨"\n      [Respond in under 40 words]\n      User Query: laptops\n      \n      Available Products:\n      \n      \n      Response Requirements:\n      - Concise bullet points\n      ",
      "\n      - Prioritize most relevant products\n    ",
      by decide⟩

/-- Helper: the inline template block of `buildProductContext` equals the
spec-side block built by folding over the template rows. -/
theorem specBlock_eq (p : Json) :
    "\n    Product: " ++ renderOr p "title" "Unnamed Product" ++
    "\n    Description: " ++ renderOr p "description" "No description" ++
    "\n    Price: " ++ renderOr p "price" "N/A" ++
    "\n    Category: " ++ renderOr p "category" "Uncategorized" ++
    "\n  " = specBlock p := by
  simp [specBlock, specFieldRows, String.join, String.append_assoc]

/-- C7: for every product list, the catalog text equals the spec-side
rendering: one fixed-template block per product, in input order, no
sorting and no deduplication, joined by the blank-line separator, with
each absent-or-falsy field replaced by its documented placeholder
("Unnamed Product", "No description", "N/A", "Uncategorized"). -/
theorem context_matches_spec_template (products : List Json) :
    buildProductContext products = buildProductContext_spec products := by
  unfold buildProductContext buildProductContext_spec
  congr 1
  exact List.map_congr_left (fun p _ => specBlock_eq p)
